import Mathlib

/-!
Verification of the decision logic of `dns_update.py`, a dynamic-DNS updater.

The reconciliation cycle (`check_and_update_dns`) is shallowly embedded as a
pure function over an `Env` describing what the network collaborators return
during one cycle:
  * the configuration file (`load_config`),
  * the external-IP endpoint (`get_external_ip`),
  * the DNS-over-HTTPS resolver (`get_cloudflare_dns_ip`),
  * the provider zone list, record list and update endpoints
    (`get_zone_id`, `get_dns_record_id`, `update_dns_record`).

A transport failure, timeout or non-2xx HTTP status (the Python
`requests.RequestException`, surfaced by `raise_for_status`) is modelled as
`Except.error ()` in the corresponding `Env` field.  The cycle returns the
outcome together with the list of external calls it performed, in order;
`Except.error ()` as the overall result of the cycle models `sys.exit(1)` raised
by `load_config` (a `SystemExit` that escapes the `except Exception`
handler of the cycle, terminating the process).
-/

namespace DnsUpdate

/-- One element of the `Answer` array of the DoH response (only the `data`
field is read by the code). -/
structure DnsAnswer where
  data : String
deriving Repr, DecidableEq

/-- The DNS-over-HTTPS JSON response body.  The code tests
`data.get("Answer")` for truthiness, so an absent `Answer` key and an empty
`Answer` array behave identically; both are modelled as `[]`. -/
structure DnsQueryResponse where
  Answer : List DnsAnswer
deriving Repr, DecidableEq

/-- One element of the `result` array of a Cloudflare list response (only the
`id` field is read). -/
structure CfEntry where
  id : String
deriving Repr, DecidableEq

/-- A Cloudflare API list envelope `{success, result, ...}`.  The code tests
`data.get("success")` and `data.get("result")` for truthiness; an absent or
empty `result` is modelled as `[]`. -/
structure CfListResponse where
  success : Bool
  result : List CfEntry
deriving Repr, DecidableEq

/-- A Cloudflare API update envelope; only its `success` flag is tested. -/
structure CfUpdateResponse where
  success : Bool
deriving Repr, DecidableEq

/-- The parsed JSON configuration file: a finite map from key to string
value, as a list of pairs. -/
abbrev RawConfig := List (String × String)

/-- `config[k]` lookup: the value bound to `k`, if the key is present. -/
def lookupField (c : RawConfig) (k : String) : Option String :=
  (c.find? (fun p => p.1 == k)).map Prod.snd

/-- `config[k]` access after a successful load (the key is then present, so
the default is never used). -/
def cfgGet (c : RawConfig) (k : String) : String :=
  (lookupField c k).getD ""

/-- The `required_fields` list of `load_config`. -/
def required_fields : List String :=
  ["zone", "dnsrecord", "cloudflare_auth_email", "cloudflare_auth_key"]

/-- The `missing_fields` comprehension of `load_config`: required fields not
present in the config. -/
def missing_fields (c : RawConfig) : List String :=
  required_fields.filter (fun f => (lookupField c f).isNone)

/-- `load_config`: `none` models a missing (or undecodable) config file.
`Except.error ()` models `sys.exit(1)`.  Only key presence is validated;
values are not inspected. -/
def load_config (file : Option RawConfig) : Except Unit RawConfig :=
  match file with
  | none => .error ()
  | some c =>
      if (missing_fields c).isEmpty then .ok c else .error ()

/-- Python `str.strip()`: drop leading and trailing whitespace. -/
def pyStrip (s : String) : String :=
  ⟨((s.data.dropWhile Char.isWhitespace).reverse.dropWhile Char.isWhitespace).reverse⟩

/-- `get_external_ip`: on transport success the response body is stripped
(`response.text.strip()`) and returned; a `RequestException` is logged and
re-raised (`Except.error ()`). -/
def get_external_ip (resp : Except Unit String) : Except Unit String :=
  match resp with
  | .error e => .error e
  | .ok body => .ok (pyStrip body)

/-- `get_cloudflare_dns_ip`: a `RequestException` is caught, a warning is
logged and `None` is returned; a falsy `Answer` section yields `None`;
otherwise the `data` field of the first answer is returned. -/
def get_cloudflare_dns_ip (resp : Except Unit DnsQueryResponse) : Option String :=
  match resp with
  | .error _ => none
  | .ok d =>
      match d.Answer with
      | [] => none
      | a :: _ => some a.data

/-- `get_zone_id`: raises (`Except.error ()`) on transport failure, on a
`success = false` envelope, and on a falsy `result` array; otherwise returns
`result[0]["id"]`. -/
def get_zone_id (resp : Except Unit CfListResponse) : Except Unit String :=
  match resp with
  | .error _ => .error ()
  | .ok d =>
      if !d.success then .error ()
      else
        match d.result with
        | [] => .error ()
        | e :: _ => .ok e.id

/-- `get_dns_record_id`: same shape as `get_zone_id`, over the A-record list
of the zone. -/
def get_dns_record_id (resp : Except Unit CfListResponse) : Except Unit String :=
  match resp with
  | .error _ => .error ()
  | .ok d =>
      if !d.success then .error ()
      else
        match d.result with
        | [] => .error ()
        | e :: _ => .ok e.id

/-- The JSON payload sent by `update_dns_record`. -/
structure UpdatePayload where
  type : String
  name : String
  content : String
  ttl : Nat
  proxied : Bool
deriving Repr, DecidableEq

/-- The payload literal built in `update_dns_record`: record type `"A"`,
`ttl` fixed at `1`, `proxied` disabled. -/
def mkPayload (dnsrecord ip : String) : UpdatePayload :=
  { type := "A", name := dnsrecord, content := ip, ttl := 1, proxied := false }

/-- `update_dns_record`: raises (`Except.error ()`) on transport failure and
on a `success = false` envelope; otherwise returns the response body. -/
def update_dns_record (resp : Except Unit CfUpdateResponse) :
    Except Unit CfUpdateResponse :=
  match resp with
  | .error _ => .error ()
  | .ok d => if !d.success then .error () else .ok d

/-- One outgoing network call made during a cycle, with the request data
that the code puts on the wire. -/
inductive ExtCall where
  | fetchExternalIp
  | dnsLookup (name : String)
  | zoneLookup (zone : String)
  | recordLookup (zone_id name : String)
  | updateRecord (zone_id record_id : String) (payload : UpdatePayload)
deriving Repr, DecidableEq

/-- How one invocation of `check_and_update_dns` ends (when the process
survives it). -/
inductive CycleOutcome where
  | noChangeNeeded
  | updated
  | cycleError
deriving Repr, DecidableEq

/-- What the collaborators would answer during one reconciliation cycle. -/
structure Env where
  configFile : Option RawConfig
  externalIpResp : Except Unit String
  dnsQueryResp : Except Unit DnsQueryResponse
  zonesResp : Except Unit CfListResponse
  recordsResp : Except Unit CfListResponse
  updateResp : Except Unit CfUpdateResponse

/-- Python truthiness of an `Optional[str]`: `None` and `""` are falsy. -/
def pyTruthy : Option String → Bool
  | none => false
  | some s => !(s == "")

/-- `check_and_update_dns`, one reconciliation cycle.  `load_config` runs
first, outside the `try` block: its `sys.exit(1)` terminates the process
(`Except.error ()`).  Every other failure is caught by the
`except Exception` handler at the end of the function (`CycleOutcome.cycleError`).
The returned list records the external calls in program order; a call whose
response then signals failure is still recorded, since the request was
issued before the exception. -/
def check_and_update_dns (env : Env) : Except Unit (CycleOutcome × List ExtCall) :=
  match load_config env.configFile with
  | .error _ => .error ()
  | .ok cfg =>
      let zone := cfgGet cfg "zone"
      let dnsrecord := cfgGet cfg "dnsrecord"
      match get_external_ip env.externalIpResp with
      | .error _ => .ok (.cycleError, [.fetchExternalIp])
      | .ok current_ip =>
          let cf_ip := get_cloudflare_dns_ip env.dnsQueryResp
          let t0 : List ExtCall := [.fetchExternalIp, .dnsLookup dnsrecord]
          if pyTruthy cf_ip && cf_ip == some current_ip then
            .ok (.noChangeNeeded, t0)
          else
            match get_zone_id env.zonesResp with
            | .error _ => .ok (.cycleError, t0 ++ [.zoneLookup zone])
            | .ok zone_id =>
                match get_dns_record_id env.recordsResp with
                | .error _ =>
                    .ok (.cycleError,
                      t0 ++ [.zoneLookup zone, .recordLookup zone_id dnsrecord])
                | .ok record_id =>
                    let payload := mkPayload dnsrecord current_ip
                    let t1 := t0 ++ [.zoneLookup zone,
                      .recordLookup zone_id dnsrecord,
                      .updateRecord zone_id record_id payload]
                    match update_dns_record env.updateResp with
                    | .error _ => .ok (.cycleError, t1)
                    | .ok _ => .ok (.updated, t1)

/-- Calls addressed to the Provider API Client (authenticated Cloudflare
management-API calls). -/
def isProviderCall : ExtCall → Bool
  | .zoneLookup _ => true
  | .recordLookup _ _ => true
  | .updateRecord _ _ _ => true
  | _ => false

/-- Calls addressed to the DNS Lookup Client (the DoH resolver). -/
def isDnsLookup : ExtCall → Bool
  | .dnsLookup _ => true
  | _ => false

/-- Record-update (write) calls. -/
def isUpdateCall : ExtCall → Bool
  | .updateRecord _ _ _ => true
  | _ => false

/-- Record-lookup calls. -/
def isRecordLookup : ExtCall → Bool
  | .recordLookup _ _ => true
  | _ => false

/-- The payloads of the update calls in a trace, in order. -/
def updatePayloads (t : List ExtCall) : List UpdatePayload :=
  t.filterMap (fun c =>
    match c with
    | .updateRecord _ _ p => some p
    | _ => none)

/-! ### Concrete fixtures used by witnesses and counterexamples -/

/-- A well-formed configuration file. -/
def cfgOk : RawConfig :=
  [("zone", "example.com"), ("dnsrecord", "host.example.com"),
   ("cloudflare_auth_email", "user@example.com"), ("cloudflare_auth_key", "k")]

/-- A configuration file in which all four required keys are present but
every value is the empty string. -/
def cfgEmptyVals : RawConfig :=
  [("zone", ""), ("dnsrecord", ""),
   ("cloudflare_auth_email", ""), ("cloudflare_auth_key", "")]

/-- A cycle in which the published IP matches the external IP. -/
def envInSync : Env :=
  { configFile := some cfgOk
    externalIpResp := .ok "1.2.3.4\n"
    dnsQueryResp := .ok ⟨[⟨"1.2.3.4"⟩]⟩
    zonesResp := .ok ⟨true, [⟨"z1"⟩]⟩
    recordsResp := .ok ⟨true, [⟨"r1"⟩]⟩
    updateResp := .ok ⟨true⟩ }

/-- A cycle in which the published IP differs from the external IP and every
provider call succeeds. -/
def envDivergent : Env :=
  { envInSync with
    externalIpResp := .ok "5.6.7.8\n"
    dnsQueryResp := .ok ⟨[⟨"1.2.3.4"⟩]⟩ }

/-- A cycle in which both the external IP and the published IP are the empty
string (a whitespace-only body from the IP endpoint, an empty `data` field
from the resolver). -/
def envEmptyInSync : Env :=
  { envInSync with
    externalIpResp := .ok "   "
    dnsQueryResp := .ok ⟨[⟨""⟩]⟩ }

/-- A cycle during which the configuration file is missing. -/
def envNoConfigFile : Env :=
  { envInSync with configFile := none }

/-- A cycle during which the configuration file lacks required keys. -/
def envMissingField : Env :=
  { envInSync with configFile := some [("zone", "example.com")] }

/-- A cycle in which the external-IP fetch fails. -/
def envResolverFail : Env :=
  { envInSync with externalIpResp := .error () }

/-- A divergent cycle in which the provider zone lookup returns zero
matches. -/
def envZoneFail : Env :=
  { envDivergent with zonesResp := .ok ⟨true, []⟩ }

/-- First run of the empty-IP idempotence scenario: no record is published
yet and the external IP endpoint returns a whitespace-only body, so the
cycle writes the empty string. -/
def envIdem1 : Env :=
  { envInSync with
    externalIpResp := .ok ""
    dnsQueryResp := .ok ⟨[]⟩ }

/-- Second run of the empty-IP idempotence scenario: the resolver now
reflects the write of the first run (`data = ""`) and the external IP is
unchanged. -/
def envIdem2 : Env :=
  { envIdem1 with dnsQueryResp := .ok ⟨[⟨""⟩]⟩ }

/-- The trace produced by both runs of the empty-IP idempotence
scenario. -/
def idemTrace : List ExtCall :=
  [.fetchExternalIp, .dnsLookup "host.example.com", .zoneLookup "example.com",
   .recordLookup "z1" "host.example.com",
   .updateRecord "z1" "r1" ⟨"A", "host.example.com", "", 1, false⟩]

/-- The trace of the cycle on `envEmptyInSync`. -/
def emptyInSyncTrace : List ExtCall := idemTrace

/-- The trace produced by the cycle on `envDivergent`. -/
def divergentTrace : List ExtCall :=
  [.fetchExternalIp, .dnsLookup "host.example.com", .zoneLookup "example.com",
   .recordLookup "z1" "host.example.com",
   .updateRecord "z1" "r1" ⟨"A", "host.example.com", "5.6.7.8", 1, false⟩]

/-- A cycle following `envDivergent`, whose DNS lookup reflects the write
performed there: the published IP is now `"5.6.7.8"` and the external IP is
unchanged. -/
def envAfterWrite : Env :=
  { envDivergent with dnsQueryResp := .ok ⟨[⟨"5.6.7.8"⟩]⟩ }

/-! ### Helper lemmas shared by the claim theorems -/

/-- When the cycle is in sync (published IP truthy and equal to the fetched
external IP), `check_and_update_dns` stops after the two read-only calls. -/
theorem reconcile_in_sync (env : Env) (cfg : RawConfig) (ip : String)
    (hcfg : load_config env.configFile = .ok cfg)
    (hip : get_external_ip env.externalIpResp = .ok ip)
    (hpub : get_cloudflare_dns_ip env.dnsQueryResp = some ip)
    (hne : ip ≠ "") :
    check_and_update_dns env =
      .ok (.noChangeNeeded,
        [.fetchExternalIp, .dnsLookup (cfgGet cfg "dnsrecord")]) := by
  unfold check_and_update_dns
  rw [hcfg, hip, hpub]
  simp [pyTruthy, hne]

/-- The guard of the no-change branch is false whenever the published IP is
absent or differs from the external IP. -/
theorem in_sync_guard_false (cf : Option String) (ip : String)
    (h : cf = none ∨ cf ≠ some ip) :
    (pyTruthy cf && (cf == some ip)) = false := by
  rcases h with h | h
  · subst h; rfl
  · have hb : (cf == some ip) = false := beq_eq_false_iff_ne.mpr h
    simp [hb]

/-- When the cycle is divergent and all three provider calls succeed,
`check_and_update_dns` performs the full five-call trace and reports an
update. -/
theorem reconcile_divergent_update (env : Env) (cfg : RawConfig)
    (ip zid rid : String) (r : CfUpdateResponse)
    (hcfg : load_config env.configFile = .ok cfg)
    (hip : get_external_ip env.externalIpResp = .ok ip)
    (hdiv : (pyTruthy (get_cloudflare_dns_ip env.dnsQueryResp) &&
             (get_cloudflare_dns_ip env.dnsQueryResp == some ip)) = false)
    (hz : get_zone_id env.zonesResp = .ok zid)
    (hr : get_dns_record_id env.recordsResp = .ok rid)
    (hu : update_dns_record env.updateResp = .ok r) :
    check_and_update_dns env =
      .ok (.updated,
        [.fetchExternalIp, .dnsLookup (cfgGet cfg "dnsrecord"),
         .zoneLookup (cfgGet cfg "zone"),
         .recordLookup zid (cfgGet cfg "dnsrecord"),
         .updateRecord zid rid (mkPayload (cfgGet cfg "dnsrecord") ip)]) := by
  unfold check_and_update_dns
  rw [hcfg, hip, hz, hr, hu]
  simp [hdiv]

/-- Whenever the per-cycle configuration load succeeds, the cycle returns
normally, whatever the network answers. -/
theorem reconcile_total_of_config_ok (env : Env) (cfg : RawConfig)
    (hcfg : load_config env.configFile = .ok cfg) :
    ∃ out t, check_and_update_dns env = .ok (out, t) := by
  unfold check_and_update_dns
  rw [hcfg]
  cases get_external_ip env.externalIpResp with
  | error e => exact ⟨_, _, rfl⟩
  | ok ip =>
      dsimp only
      split
      · exact ⟨_, _, rfl⟩
      · cases get_zone_id env.zonesResp with
        | error e => exact ⟨_, _, rfl⟩
        | ok zid =>
            cases get_dns_record_id env.recordsResp with
            | error e => exact ⟨_, _, rfl⟩
            | ok rid =>
                cases update_dns_record env.updateResp with
                | error e => exact ⟨_, _, rfl⟩
                | ok r => exact ⟨_, _, rfl⟩

/-- `get_zone_id` raises exactly on the three failure shapes: transport
failure, a `success = false` envelope, and an empty `result` array. -/
theorem get_zone_id_error_of_failure (resp : Except Unit CfListResponse)
    (h : resp = .error () ∨ (∃ d, resp = .ok d ∧ d.success = false) ∨
         (∃ d, resp = .ok d ∧ d.result = [])) :
    get_zone_id resp = .error () := by
  rcases h with h | ⟨d, h, hs⟩ | ⟨d, h, hr⟩
  · subst h; rfl
  · subst h; simp [get_zone_id, hs]
  · subst h
    rcases d with ⟨s, res⟩
    cases s <;> simp_all [get_zone_id]

/-- When the cycle is divergent and the zone lookup raises, the cycle aborts
right after the zone call. -/
theorem reconcile_zone_abort (env : Env) (cfg : RawConfig) (ip : String)
    (hcfg : load_config env.configFile = .ok cfg)
    (hip : get_external_ip env.externalIpResp = .ok ip)
    (hdiv : (pyTruthy (get_cloudflare_dns_ip env.dnsQueryResp) &&
             (get_cloudflare_dns_ip env.dnsQueryResp == some ip)) = false)
    (hz : get_zone_id env.zonesResp = .error ()) :
    check_and_update_dns env =
      .ok (.cycleError,
        [.fetchExternalIp, .dnsLookup (cfgGet cfg "dnsrecord"),
         .zoneLookup (cfgGet cfg "zone")]) := by
  unfold check_and_update_dns
  rw [hcfg, hip, hz]
  simp [hdiv]

/-- When the cycle is divergent and the record lookup raises, the cycle
aborts right after the record call. -/
theorem reconcile_record_abort (env : Env) (cfg : RawConfig) (ip zid : String)
    (hcfg : load_config env.configFile = .ok cfg)
    (hip : get_external_ip env.externalIpResp = .ok ip)
    (hdiv : (pyTruthy (get_cloudflare_dns_ip env.dnsQueryResp) &&
             (get_cloudflare_dns_ip env.dnsQueryResp == some ip)) = false)
    (hz : get_zone_id env.zonesResp = .ok zid)
    (hr : get_dns_record_id env.recordsResp = .error ()) :
    check_and_update_dns env =
      .ok (.cycleError,
        [.fetchExternalIp, .dnsLookup (cfgGet cfg "dnsrecord"),
         .zoneLookup (cfgGet cfg "zone"),
         .recordLookup zid (cfgGet cfg "dnsrecord")]) := by
  unfold check_and_update_dns
  rw [hcfg, hip, hz, hr]
  simp [hdiv]

/-- When the cycle is divergent and the update call raises, the cycle aborts
after the full five-call trace. -/
theorem reconcile_update_abort (env : Env) (cfg : RawConfig)
    (ip zid rid : String)
    (hcfg : load_config env.configFile = .ok cfg)
    (hip : get_external_ip env.externalIpResp = .ok ip)
    (hdiv : (pyTruthy (get_cloudflare_dns_ip env.dnsQueryResp) &&
             (get_cloudflare_dns_ip env.dnsQueryResp == some ip)) = false)
    (hz : get_zone_id env.zonesResp = .ok zid)
    (hr : get_dns_record_id env.recordsResp = .ok rid)
    (hu : update_dns_record env.updateResp = .error ()) :
    check_and_update_dns env =
      .ok (.cycleError,
        [.fetchExternalIp, .dnsLookup (cfgGet cfg "dnsrecord"),
         .zoneLookup (cfgGet cfg "zone"),
         .recordLookup zid (cfgGet cfg "dnsrecord"),
         .updateRecord zid rid (mkPayload (cfgGet cfg "dnsrecord") ip)]) := by
  unfold check_and_update_dns
  rw [hcfg, hip, hz, hr, hu]
  simp [hdiv]

/-! ### Claim theorems -/

/-- C1, counterexample to the claim as stated: in the cycle `envEmptyInSync`
the DNS Lookup Client returns a published IP that is present (`some ""`) and
equal to the freshly fetched external IP (`""`), yet the reconciler does call
the Provider API (zone lookup, record lookup and update all occur), because
the no-change guard additionally requires the published IP to be truthy. -/
theorem C1_counterexample :
    get_cloudflare_dns_ip envEmptyInSync.dnsQueryResp = some "" ∧
    get_external_ip envEmptyInSync.externalIpResp = .ok "" ∧
    check_and_update_dns envEmptyInSync = .ok (.updated, emptyInSyncTrace) ∧
    emptyInSyncTrace.filter isProviderCall ≠ [] :=
  ⟨rfl, rfl, rfl, by decide⟩

/-- C1, amended: for every reconciliation cycle in which the DNS Lookup
Client returns a published IP that is present, non-empty, and equal to the
freshly fetched external IP, the reconciler performs no Provider API
Client call at all (no zone lookup, no record lookup, no update) and
returns the no-change outcome after the two read-only calls. -/
theorem C1_in_sync_no_provider_call (env : Env) (cfg : RawConfig) (ip : String)
    (hcfg : load_config env.configFile = .ok cfg)
    (hip : get_external_ip env.externalIpResp = .ok ip)
    (hpub : get_cloudflare_dns_ip env.dnsQueryResp = some ip)
    (hne : ip ≠ "") :
    check_and_update_dns env =
      .ok (.noChangeNeeded,
        [.fetchExternalIp, .dnsLookup (cfgGet cfg "dnsrecord")]) ∧
    ([ExtCall.fetchExternalIp,
      ExtCall.dnsLookup (cfgGet cfg "dnsrecord")].filter isProviderCall) = [] :=
  ⟨reconcile_in_sync env cfg ip hcfg hip hpub hne, by simp [isProviderCall]⟩

/-- C1, witness: the amended theorem applied to the concrete in-sync cycle
`envInSync`. -/
theorem C1_in_sync_no_provider_call_witness :
    check_and_update_dns envInSync =
      .ok (.noChangeNeeded,
        [.fetchExternalIp, .dnsLookup (cfgGet cfgOk "dnsrecord")]) ∧
    ([ExtCall.fetchExternalIp,
      ExtCall.dnsLookup (cfgGet cfgOk "dnsrecord")].filter isProviderCall) = [] :=
  C1_in_sync_no_provider_call envInSync cfgOk "1.2.3.4" rfl rfl rfl (by decide)

/-- C2: for every cycle in which the published IP is absent or differs from
the current external IP and all three provider operations succeed, exactly
one update call occurs, and its payload carries the freshly fetched external
IP as `content`, record type `"A"`, `ttl = 1` and `proxied = false`. -/
theorem C2_divergent_single_update (env : Env) (cfg : RawConfig)
    (ip zid rid : String) (r : CfUpdateResponse)
    (hcfg : load_config env.configFile = .ok cfg)
    (hip : get_external_ip env.externalIpResp = .ok ip)
    (hpub : get_cloudflare_dns_ip env.dnsQueryResp = none ∨
            get_cloudflare_dns_ip env.dnsQueryResp ≠ some ip)
    (hz : get_zone_id env.zonesResp = .ok zid)
    (hr : get_dns_record_id env.recordsResp = .ok rid)
    (hu : update_dns_record env.updateResp = .ok r) :
    check_and_update_dns env =
      .ok (.updated,
        [.fetchExternalIp, .dnsLookup (cfgGet cfg "dnsrecord"),
         .zoneLookup (cfgGet cfg "zone"),
         .recordLookup zid (cfgGet cfg "dnsrecord"),
         .updateRecord zid rid (mkPayload (cfgGet cfg "dnsrecord") ip)]) ∧
    updatePayloads
        [.fetchExternalIp, .dnsLookup (cfgGet cfg "dnsrecord"),
         .zoneLookup (cfgGet cfg "zone"),
         .recordLookup zid (cfgGet cfg "dnsrecord"),
         .updateRecord zid rid (mkPayload (cfgGet cfg "dnsrecord") ip)] =
      [{ type := "A", name := cfgGet cfg "dnsrecord", content := ip,
         ttl := 1, proxied := false }] := by
  refine ⟨reconcile_divergent_update env cfg ip zid rid r hcfg hip
    (in_sync_guard_false _ ip hpub) hz hr hu, ?_⟩
  simp [updatePayloads, mkPayload]

/-- C2, witness: the theorem applied to the concrete divergent cycle
`envDivergent`. -/
theorem C2_divergent_single_update_witness :
    check_and_update_dns envDivergent =
      .ok (.updated,
        [.fetchExternalIp, .dnsLookup (cfgGet cfgOk "dnsrecord"),
         .zoneLookup (cfgGet cfgOk "zone"),
         .recordLookup "z1" (cfgGet cfgOk "dnsrecord"),
         .updateRecord "z1" "r1" (mkPayload (cfgGet cfgOk "dnsrecord") "5.6.7.8")]) ∧
    updatePayloads
        [.fetchExternalIp, .dnsLookup (cfgGet cfgOk "dnsrecord"),
         .zoneLookup (cfgGet cfgOk "zone"),
         .recordLookup "z1" (cfgGet cfgOk "dnsrecord"),
         .updateRecord "z1" "r1" (mkPayload (cfgGet cfgOk "dnsrecord") "5.6.7.8")] =
      [{ type := "A", name := cfgGet cfgOk "dnsrecord", content := "5.6.7.8",
         ttl := 1, proxied := false }] :=
  C2_divergent_single_update envDivergent cfgOk "5.6.7.8" "z1" "r1" ⟨true⟩
    rfl rfl (Or.inr (by decide)) rfl rfl rfl

/-- C4: the published-IP lookup never raises: it returns `none` on transport
failure, `none` when the `Answer` section is empty or absent, and otherwise
the `data` field of the first answer (totality is expressed by its
`Option String` return type). -/
theorem C4_lookup_never_raises :
    (∀ e : Unit, get_cloudflare_dns_ip (.error e) = none) ∧
    (get_cloudflare_dns_ip (.ok ⟨[]⟩) = none) ∧
    (∀ (a : DnsAnswer) (rest : List DnsAnswer),
      get_cloudflare_dns_ip (.ok ⟨a :: rest⟩) = some a.data) :=
  ⟨fun _ => rfl, rfl, fun _ _ => rfl⟩

/-- C10: when the zone listing or the record listing succeeds with more than
one matching entry, resolution does not fail on ambiguity: each returns the
`id` field of the first element of the `result` array. -/
theorem C10_first_match_no_ambiguity (e1 e2 : CfEntry) (rest : List CfEntry) :
    get_zone_id (.ok ⟨true, e1 :: e2 :: rest⟩) = .ok e1.id ∧
    get_dns_record_id (.ok ⟨true, e1 :: e2 :: rest⟩) = .ok e1.id :=
  ⟨rfl, rfl⟩

/-- C3, counterexample to the claim as stated: the reconcile operation calls
`load_config` outside its `try` block, so when the configuration file is
missing, or a required key is absent, the cycle raises `SystemExit`
(`sys.exit(1)`, modelled by `Except.error ()`) and the process terminates
instead of continuing to the next tick. -/
theorem C3_counterexample :
    check_and_update_dns envNoConfigFile = .error () ∧
    check_and_update_dns envMissingField = .error () :=
  ⟨rfl, rfl⟩

/-- C3, amended: for every outcome of the IP resolver, the DNS lookup and
the three provider operations, a cycle whose per-cycle configuration load
succeeds returns normally — all those failures are caught and absorbed; a
failing configuration load, however, exits the process. -/
theorem C3_no_escape_when_config_loads (env : Env) (cfg : RawConfig)
    (hcfg : load_config env.configFile = .ok cfg) :
    ∃ out t, check_and_update_dns env = .ok (out, t) :=
  reconcile_total_of_config_ok env cfg hcfg

/-- C3, witness: the amended theorem applied to a concrete cycle in which
every network collaborator fails. -/
theorem C3_no_escape_when_config_loads_witness :
    ∃ out t, check_and_update_dns
      { envInSync with
        externalIpResp := .error ()
        dnsQueryResp := .error ()
        zonesResp := .error ()
        recordsResp := .error ()
        updateResp := .error () } = .ok (out, t) :=
  C3_no_escape_when_config_loads _ cfgOk rfl

/-- C5, counterexample to the claim as stated: `load_config` accepts a
configuration whose four required values are all the empty string (only key
presence is checked, not non-emptiness), and the configuration is reloaded
by every reconciliation cycle — two cycles with identical network behavior
but different configuration files behave differently, the one whose file is
gone exiting the process. -/
theorem C5_counterexample :
    load_config (some cfgEmptyVals) = .ok cfgEmptyVals ∧
    cfgGet cfgEmptyVals "zone" = "" ∧
    check_and_update_dns { envDivergent with configFile := none } = .error () ∧
    check_and_update_dns envDivergent = .ok (.updated, divergentTrace) :=
  ⟨rfl, rfl, rfl, rfl⟩

/-- C5, amended: the configuration is loaded at startup and re-loaded from
the file at the start of every reconciliation cycle (a load failure mid-run
exits the process); at load time the four required fields are validated to
be present — absence of any one is fatal — but their values are not checked
for non-emptiness. -/
theorem C5_config_presence_validation (c : RawConfig) (env : Env) :
    (missing_fields c = [] → load_config (some c) = .ok c) ∧
    (missing_fields c ≠ [] → load_config (some c) = .error ()) ∧
    load_config none = .error () ∧
    (env.configFile = none → check_and_update_dns env = .error ()) := by
  refine ⟨?_, ?_, rfl, ?_⟩
  · intro h
    simp [load_config, h]
  · intro h
    simp [load_config, List.isEmpty_iff, h]
  · intro h
    unfold check_and_update_dns
    rw [h]
    rfl

/-- C5, witness: the amended theorem applied to concrete configurations and
to a cycle whose configuration file is missing. -/
theorem C5_config_presence_validation_witness :
    load_config (some cfgOk) = .ok cfgOk ∧
    load_config (some [("zone", "example.com")]) = .error () ∧
    check_and_update_dns envNoConfigFile = .error () :=
  ⟨(C5_config_presence_validation cfgOk envNoConfigFile).1 (by decide),
   (C5_config_presence_validation [("zone", "example.com")] envNoConfigFile).2.1
     (by decide),
   (C5_config_presence_validation cfgOk envNoConfigFile).2.2.2 rfl⟩

/-- C6: in every cycle in which the IP resolver fails, the trace is the
single failed fetch — zero DNS Lookup Client calls and zero Provider API
Client calls — and the cycle returns normally (the process survives). -/
theorem C6_resolver_failure_isolated (env : Env) (cfg : RawConfig)
    (hcfg : load_config env.configFile = .ok cfg)
    (hfail : env.externalIpResp = .error ()) :
    check_and_update_dns env = .ok (.cycleError, [.fetchExternalIp]) ∧
    ([ExtCall.fetchExternalIp].filter
        (fun c => isDnsLookup c || isProviderCall c)) = [] := by
  constructor
  · unfold check_and_update_dns
    have h : get_external_ip env.externalIpResp = .error () := by
      rw [hfail]
      rfl
    rw [hcfg, h]
  · decide

/-- C6, witness: the theorem applied to the concrete cycle
`envResolverFail`. -/
theorem C6_resolver_failure_isolated_witness :
    check_and_update_dns envResolverFail = .ok (.cycleError, [.fetchExternalIp]) ∧
    ([ExtCall.fetchExternalIp].filter
        (fun c => isDnsLookup c || isProviderCall c)) = [] :=
  C6_resolver_failure_isolated envResolverFail cfgOk rfl rfl

/-- C7: in every divergent cycle in which the zone lookup fails — transport
failure, `success = false` envelope, or zero matching zones — the record
lookup and the update are never attempted: the trace stops at the zone call,
and the cycle returns normally so the process continues to the next tick. -/
theorem C7_zone_failure_isolated (env : Env) (cfg : RawConfig) (ip : String)
    (hcfg : load_config env.configFile = .ok cfg)
    (hip : get_external_ip env.externalIpResp = .ok ip)
    (hdiv : (pyTruthy (get_cloudflare_dns_ip env.dnsQueryResp) &&
             (get_cloudflare_dns_ip env.dnsQueryResp == some ip)) = false)
    (hz : env.zonesResp = .error () ∨
          (∃ d, env.zonesResp = .ok d ∧ d.success = false) ∨
          (∃ d, env.zonesResp = .ok d ∧ d.result = [])) :
    check_and_update_dns env =
      .ok (.cycleError,
        [.fetchExternalIp, .dnsLookup (cfgGet cfg "dnsrecord"),
         .zoneLookup (cfgGet cfg "zone")]) ∧
    ([ExtCall.fetchExternalIp, ExtCall.dnsLookup (cfgGet cfg "dnsrecord"),
      ExtCall.zoneLookup (cfgGet cfg "zone")].filter
        (fun c => isRecordLookup c || isUpdateCall c)) = [] :=
  ⟨reconcile_zone_abort env cfg ip hcfg hip hdiv
      (get_zone_id_error_of_failure env.zonesResp hz),
   by simp [isRecordLookup, isUpdateCall]⟩

/-- C7, witness: the theorem applied to the concrete cycle `envZoneFail`,
whose zone lookup returns zero matches. -/
theorem C7_zone_failure_isolated_witness :
    check_and_update_dns envZoneFail =
      .ok (.cycleError,
        [.fetchExternalIp, .dnsLookup (cfgGet cfgOk "dnsrecord"),
         .zoneLookup (cfgGet cfgOk "zone")]) ∧
    ([ExtCall.fetchExternalIp, ExtCall.dnsLookup (cfgGet cfgOk "dnsrecord"),
      ExtCall.zoneLookup (cfgGet cfgOk "zone")].filter
        (fun c => isRecordLookup c || isUpdateCall c)) = [] :=
  C7_zone_failure_isolated envZoneFail cfgOk "5.6.7.8" rfl rfl (by decide)
    (Or.inr (Or.inr ⟨⟨true, []⟩, rfl, rfl⟩))

/-- C8, counterexample to the claim as stated: in the empty-IP scenario the
first run writes the empty string; the second run sees a published IP equal
to the unchanged external IP (both `""`), yet performs another provider
update call, because the no-change guard requires a truthy published IP. -/
theorem C8_counterexample :
    check_and_update_dns envIdem1 = .ok (.updated, idemTrace) ∧
    updatePayloads idemTrace = [⟨"A", "host.example.com", "", 1, false⟩] ∧
    get_external_ip envIdem2.externalIpResp = .ok "" ∧
    get_cloudflare_dns_ip envIdem2.dnsQueryResp = some "" ∧
    check_and_update_dns envIdem2 = .ok (.updated, idemTrace) ∧
    idemTrace.filter isUpdateCall ≠ [] :=
  ⟨rfl, rfl, rfl, rfl, rfl, by decide⟩

/-- C8, amended: running the reconcile operation twice in succession, where
the first run performed an update writing a non-empty IP and the second run
sees that IP both published and as the unchanged external IP, results in
the second run performing no provider update call. -/
theorem C8_second_run_noop (env1 env2 : Env) (cfg : RawConfig)
    (ip : String) (t1 : List ExtCall)
    (h1 : check_and_update_dns env1 = .ok (.updated, t1))
    (hw : (updatePayloads t1).map UpdatePayload.content = [ip])
    (hne : ip ≠ "")
    (hcfg : load_config env2.configFile = .ok cfg)
    (hip : get_external_ip env2.externalIpResp = .ok ip)
    (hpub : get_cloudflare_dns_ip env2.dnsQueryResp = some ip) :
    check_and_update_dns env2 =
      .ok (.noChangeNeeded,
        [.fetchExternalIp, .dnsLookup (cfgGet cfg "dnsrecord")]) ∧
    ([ExtCall.fetchExternalIp,
      ExtCall.dnsLookup (cfgGet cfg "dnsrecord")].filter isUpdateCall) = [] :=
  ⟨reconcile_in_sync env2 cfg ip hcfg hip hpub hne, by simp [isUpdateCall]⟩

/-- C8, witness: the amended theorem applied to a first run on
`envDivergent` (which writes `"5.6.7.8"`) and a second run on
`envAfterWrite`, whose DNS lookup reflects that write. -/
theorem C8_second_run_noop_witness :
    check_and_update_dns envAfterWrite =
      .ok (.noChangeNeeded,
        [.fetchExternalIp, .dnsLookup (cfgGet cfgOk "dnsrecord")]) ∧
    ([ExtCall.fetchExternalIp,
      ExtCall.dnsLookup (cfgGet cfgOk "dnsrecord")].filter isUpdateCall) = [] :=
  C8_second_run_noop envDivergent envAfterWrite cfgOk "5.6.7.8" divergentTrace
    rfl rfl (by decide) rfl rfl rfl

/-- C9: when the DNS lookup returns the empty string as the published IP,
the reconciler treats the record as divergent and proceeds to the provider
update sequence — for every fetched external IP, the empty string included —
because the no-change branch requires the published IP to be truthy as well
as equal. -/
theorem C9_empty_published_divergent (env : Env) (cfg : RawConfig) (s : String)
    (hcfg : load_config env.configFile = .ok cfg)
    (hip : get_external_ip env.externalIpResp = .ok s)
    (hpub : get_cloudflare_dns_ip env.dnsQueryResp = some "") :
    ∃ out t, check_and_update_dns env = .ok (out, t) ∧
      out ≠ CycleOutcome.noChangeNeeded ∧
      ExtCall.zoneLookup (cfgGet cfg "zone") ∈ t := by
  have hdiv : (pyTruthy (get_cloudflare_dns_ip env.dnsQueryResp) &&
               (get_cloudflare_dns_ip env.dnsQueryResp == some s)) = false := by
    rw [hpub]; rfl
  cases hz : get_zone_id env.zonesResp with
  | error e =>
      cases e
      exact ⟨_, _, reconcile_zone_abort env cfg s hcfg hip hdiv hz,
        by decide, by simp⟩
  | ok zid =>
      cases hr : get_dns_record_id env.recordsResp with
      | error e =>
          cases e
          exact ⟨_, _, reconcile_record_abort env cfg s zid hcfg hip hdiv hz hr,
            by decide, by simp⟩
      | ok rid =>
          cases hu : update_dns_record env.updateResp with
          | error e =>
              cases e
              exact ⟨_, _,
                reconcile_update_abort env cfg s zid rid hcfg hip hdiv hz hr hu,
                by decide, by simp⟩
          | ok r =>
              exact ⟨_, _,
                reconcile_divergent_update env cfg s zid rid r hcfg hip hdiv hz hr hu,
                by decide, by simp⟩

/-- C9, witness: the theorem applied to the concrete cycle `envIdem2`, in
which both the published IP and the fetched external IP are the empty
string. -/
theorem C9_empty_published_divergent_witness :
    ∃ out t, check_and_update_dns envIdem2 = .ok (out, t) ∧
      out ≠ CycleOutcome.noChangeNeeded ∧
      ExtCall.zoneLookup (cfgGet cfgOk "zone") ∈ t :=
  C9_empty_published_divergent envIdem2 cfgOk "" rfl rfl rfl

end DnsUpdate
